import Mathlib

/-!
Verification of the KuCoin fair-price trading bot (JavaScript sources in
`src/`) against its natural-language specification.

Embedding conventions:
* JavaScript numbers are embedded as exact rationals (`ℚ`).
* Fallible functions return `Except`; JavaScript `null` becomes `Option`.
* The Telegram message parser is embedded at the level of UTF-16 code
  units (`List ℕ`), because JavaScript strings are code-unit sequences
  and regular expressions without the `u` flag match code units, which
  is decisive for the direction-marker logic.
* Helpers that live in `src/utils/helpers.js` and
  `src/services/time.service.js` (files absent from the sources) are
  modelled from the specification and marked as such in their doc
  comments.
-/

deriving instance DecidableEq for Except

namespace KuCoinBot

/-- JavaScript `x || d` for an optional numeric field: `undefined` and `0`
are both falsy, so both fall back to the default. -/
def jsOrQ (x : Option ℚ) (d : ℚ) : ℚ :=
  match x with
  | some v => if v = 0 then d else v
  | none => d

/-- Risk configuration from `src/config/settings.js` (`config.risk`). -/
structure RiskConfig where
  leverage : ℚ
  positionSizePercent : ℚ
deriving DecidableEq, Repr

/-- Default risk configuration: `LEVERAGE` defaults to `10` and
`POSITION_SIZE_PERCENT` defaults to `5` in `src/config/settings.js`. -/
def defaultRiskConfig : RiskConfig :=
  { leverage := 10, positionSizePercent := 5 }

/-- Contract information handed to the risk calculator (`symbolInfo` in
`src/services/risk.service.js`); fields are optional because the function
defaults missing (or zero, hence falsy) fields. -/
structure SymbolInfo where
  multiplier : Option ℚ := none
  lotSize : Option ℚ := none
  minOrderQty : Option ℚ := none
  maxOrderQty : Option ℚ := none
deriving DecidableEq, Repr

/-- Position plan returned by `calculatePositionParameters`. -/
structure RiskPlan where
  entryPrice : ℚ
  quantity : ℚ
  positionSizeUSDT : ℚ
  leverage : ℚ
  requiredMargin : ℚ
  direction : String
  multiplier : ℚ
deriving DecidableEq, Repr

/-- The errors thrown by `calculatePositionParameters`. -/
inductive RiskError where
  | invalidBalance
  | invalidPrice
  | invalidDirection
  | insufficientBalance
deriving DecidableEq, Repr

/-- Modelled from the spec: `isValidNumber` lives in
`src/utils/helpers.js`, which is not among the sources.  On the rational
embedding every value is a finite number, so the check is constantly
true; the `balance ≤ 0` and `price ≤ 0` parts of the validation are kept
verbatim in `calculatePositionParameters`. -/
def isValidNumber (_x : ℚ) : Bool := true

/-- Effective contract multiplier after JavaScript `|| 1` defaulting. -/
def effMultiplier (s : SymbolInfo) : ℚ := jsOrQ s.multiplier 1

/-- Effective minimum order quantity after `|| 1` defaulting. -/
def effMinOrderQty (s : SymbolInfo) : ℚ := jsOrQ s.minOrderQty 1

/-- Effective maximum order quantity after `|| 1000000` defaulting. -/
def effMaxOrderQty (s : SymbolInfo) : ℚ := jsOrQ s.maxOrderQty 1000000

/-- Step 1 of `calculatePositionParameters`:
`positionSizeUSDT = balance * (positionSizePercent / 100)`. -/
def positionSizeUSDT (cfg : RiskConfig) (balance : ℚ) : ℚ :=
  balance * (cfg.positionSizePercent / 100)

/-- Step 2, before flooring: `lots = positionSizeUSDT / (price * multiplier)`. -/
def rawLots (cfg : RiskConfig) (balance entryPrice : ℚ) (s : SymbolInfo) : ℚ :=
  positionSizeUSDT cfg balance / (entryPrice * effMultiplier s)

/-- The two clamping steps of `calculatePositionParameters`: lift to the
minimum order quantity, then cap at the maximum order quantity, in that
order. -/
def clampCode (x lo hi : ℚ) : ℚ :=
  if (if x < lo then lo else x) > hi then hi else if x < lo then lo else x

/-- Step 2 continued: floor to whole lots (`Math.floor`), then clamp. -/
def lots (cfg : RiskConfig) (balance entryPrice : ℚ) (s : SymbolInfo) : ℚ :=
  clampCode (((rawLots cfg balance entryPrice s).floor : ℤ) : ℚ)
    (effMinOrderQty s) (effMaxOrderQty s)

/-- Step 3: `requiredMargin = lots * price * multiplier / leverage`. -/
def requiredMargin (cfg : RiskConfig) (balance entryPrice : ℚ) (s : SymbolInfo) : ℚ :=
  lots cfg balance entryPrice s * entryPrice * effMultiplier s / cfg.leverage

/-- `calculatePositionParameters` from `src/services/risk.service.js`:
validates the inputs, sizes the position in whole lots, clamps the lot
count to the contract bounds, checks the required margin against the
balance, and returns the plan. -/
def calculatePositionParameters (cfg : RiskConfig) (balance entryPrice : ℚ)
    (direction : String) (symbolInfo : SymbolInfo) : Except RiskError RiskPlan :=
  if ¬ isValidNumber balance ∨ balance ≤ 0 then .error .invalidBalance
  else if ¬ isValidNumber entryPrice ∨ entryPrice ≤ 0 then .error .invalidPrice
  else if direction ≠ "LONG" ∧ direction ≠ "SHORT" then .error .invalidDirection
  else if requiredMargin cfg balance entryPrice symbolInfo > balance then
    .error .insufficientBalance
  else
    .ok {
      entryPrice := entryPrice
      quantity := lots cfg balance entryPrice symbolInfo
      positionSizeUSDT := lots cfg balance entryPrice symbolInfo * entryPrice * effMultiplier symbolInfo
      leverage := cfg.leverage
      requiredMargin := requiredMargin cfg balance entryPrice symbolInfo
      direction := direction
      multiplier := effMultiplier symbolInfo }

/-- The specification's lot formula, stated with the standard clamp:
`clamp(floor(balance·S/100 / (price·multiplier)), minOrderQty, maxOrderQty)`.
This follows the spec's words and is compared against the source-derived
`lots` in the claim theorems. -/
def specLots (cfg : RiskConfig) (balance entryPrice : ℚ) (s : SymbolInfo) : ℚ :=
  min (max ((⌊balance * cfg.positionSizePercent / 100 / (entryPrice * effMultiplier s)⌋ : ℤ) : ℚ)
    (effMinOrderQty s)) (effMaxOrderQty s)

/-- The specification's margin formula: `lots·price·multiplier/leverage`
with the spec's clamped lot count. -/
def specRequiredMargin (cfg : RiskConfig) (balance entryPrice : ℚ) (s : SymbolInfo) : ℚ :=
  specLots cfg balance entryPrice s * entryPrice * effMultiplier s / cfg.leverage

theorem clampIfEq (x lo hi : ℚ) : clampCode x lo hi = min (max x lo) hi := by
  unfold clampCode
  rcases lt_or_le x lo with h | h <;>
    simp [max_def, min_def, h, le_of_lt, not_lt_of_le] <;>
    split_ifs <;> first | rfl | linarith

theorem lots_eq_specLots (cfg : RiskConfig) (balance entryPrice : ℚ) (s : SymbolInfo) :
    lots cfg balance entryPrice s = specLots cfg balance entryPrice s := by
  have harg : rawLots cfg balance entryPrice s
      = balance * cfg.positionSizePercent / 100 / (entryPrice * effMultiplier s) := by
    unfold rawLots positionSizeUSDT
    ring
  have hfl : (rawLots cfg balance entryPrice s).floor
      = ⌊balance * cfg.positionSizePercent / 100 / (entryPrice * effMultiplier s)⌋ := by
    rw [harg]
    rfl
  unfold lots specLots
  rw [hfl]
  exact clampIfEq _ _ _

theorem requiredMargin_eq_spec (cfg : RiskConfig) (balance entryPrice : ℚ) (s : SymbolInfo) :
    requiredMargin cfg balance entryPrice s = specRequiredMargin cfg balance entryPrice s := by
  unfold requiredMargin specRequiredMargin
  rw [lots_eq_specLots]

/-- C1: whenever `calculatePositionParameters` returns a plan, the plan's
quantity equals the floored lot count clamped into
`[minOrderQty, maxOrderQty]` and its required margin equals
`quantity · price · multiplier / leverage`, with `S` the configured
position-size percent and `L` the configured leverage. -/
theorem c1_position_sizing (cfg : RiskConfig) (balance entryPrice : ℚ)
    (direction : String) (s : SymbolInfo) (plan : RiskPlan)
    (h : calculatePositionParameters cfg balance entryPrice direction s = .ok plan) :
    plan.quantity = specLots cfg balance entryPrice s ∧
    plan.requiredMargin = plan.quantity * entryPrice * effMultiplier s / cfg.leverage := by
  unfold calculatePositionParameters at h
  split_ifs at h
  injection h with h
  subst h
  refine ⟨lots_eq_specLots cfg balance entryPrice s, ?_⟩
  simp [requiredMargin]

/-- The contract used in the concrete end-to-end sizing case of the spec:
multiplier 0.01, default order-quantity bounds. -/
def c1SymbolInfo : SymbolInfo :=
  { multiplier := some (1 / 100), lotSize := some 1,
    minOrderQty := some 1, maxOrderQty := some 1000000 }

/-- The plan produced on balance 1000, price 10, multiplier 0.01,
leverage 10, percent 5. -/
def c1Plan : RiskPlan :=
  { entryPrice := 10, quantity := 500, positionSizeUSDT := 50, leverage := 10,
    requiredMargin := 5, direction := "LONG", multiplier := 1 / 100 }

theorem ratFloorEqIntFloor (q : ℚ) : q.floor = ⌊q⌋ := rfl

theorem c1_concrete_plan :
    calculatePositionParameters defaultRiskConfig 1000 10 "LONG" c1SymbolInfo = .ok c1Plan := by
  unfold calculatePositionParameters requiredMargin lots clampCode rawLots positionSizeUSDT
    effMultiplier effMinOrderQty effMaxOrderQty jsOrQ defaultRiskConfig c1SymbolInfo c1Plan
    isValidNumber
  rw [ratFloorEqIntFloor]
  norm_num

theorem c1_position_sizing_witness :
    calculatePositionParameters defaultRiskConfig 1000 10 "LONG" c1SymbolInfo = .ok c1Plan ∧
    c1Plan.quantity = specLots defaultRiskConfig 1000 10 c1SymbolInfo ∧
    c1Plan.requiredMargin = c1Plan.quantity * 10 * effMultiplier c1SymbolInfo / 10 ∧
    c1Plan.quantity = 500 ∧ c1Plan.requiredMargin = 5 := by
  have h := c1_position_sizing defaultRiskConfig 1000 10 "LONG" c1SymbolInfo c1Plan
    c1_concrete_plan
  refine ⟨c1_concrete_plan, h.1, ?_, by norm_num [c1Plan], by norm_num [c1Plan]⟩
  have h2 := h.2
  simpa [defaultRiskConfig] using h2

/-- C2: `calculatePositionParameters` throws an invalid-input error exactly
when the balance is nonpositive, the price is nonpositive, or the
direction is neither LONG nor SHORT (on the rational embedding every value
is a number); for valid inputs it throws the insufficient-balance error
exactly when the required margin computed after clamping exceeds the
balance, and in every other case it returns a plan. -/
theorem c2_risk_error_conditions (cfg : RiskConfig) (balance entryPrice : ℚ)
    (direction : String) (s : SymbolInfo) :
    ((∃ e, calculatePositionParameters cfg balance entryPrice direction s = .error e ∧
        (e = .invalidBalance ∨ e = .invalidPrice ∨ e = .invalidDirection)) ↔
      (balance ≤ 0 ∨ entryPrice ≤ 0 ∨ (direction ≠ "LONG" ∧ direction ≠ "SHORT"))) ∧
    (0 < balance → 0 < entryPrice → (direction = "LONG" ∨ direction = "SHORT") →
      ((calculatePositionParameters cfg balance entryPrice direction s =
          .error .insufficientBalance) ↔
        balance < specRequiredMargin cfg balance entryPrice s) ∧
      (specRequiredMargin cfg balance entryPrice s ≤ balance →
        ∃ plan, calculatePositionParameters cfg balance entryPrice direction s = .ok plan)) := by
  constructor
  · unfold calculatePositionParameters
    simp only [isValidNumber, Bool.not_true]
    split_ifs with h1 h2 h3 h4 <;> simp_all
  · intro hb hp hd
    unfold calculatePositionParameters
    rw [requiredMargin_eq_spec]
    simp only [isValidNumber, Bool.not_true]
    constructor
    · split_ifs with h1 h2 h3 h4 <;> simp_all <;> try linarith
    · intro hm
      split_ifs with h1 h2 h3 h4 <;> simp_all <;> try linarith

/-- The contract of the C2 witness: minimum order quantity 5, so the
floored lot count 0 is sized up to 5 before the margin check. -/
def c2SymbolInfo : SymbolInfo :=
  { multiplier := none, lotSize := none, minOrderQty := some 5, maxOrderQty := none }

theorem c2_margin_concrete :
    (1 : ℚ) < specRequiredMargin defaultRiskConfig 1 100 c2SymbolInfo := by
  unfold specRequiredMargin specLots effMultiplier effMinOrderQty effMaxOrderQty jsOrQ
    defaultRiskConfig c2SymbolInfo
  norm_num

theorem c2_risk_error_conditions_witness :
    calculatePositionParameters defaultRiskConfig 1 100 "LONG" c2SymbolInfo
      = .error .insufficientBalance ∧
    (1 : ℚ) < specRequiredMargin defaultRiskConfig 1 100 c2SymbolInfo :=
  ⟨(((c2_risk_error_conditions defaultRiskConfig 1 100 "LONG" c2SymbolInfo).2
      (by norm_num) (by norm_num) (Or.inl rfl)).1).mpr c2_margin_concrete,
   c2_margin_concrete⟩

/-! ## Admission pipeline

`validateSignal` from the orchestrator (`src/config/settings.js`,
second document), the nine-gate admission sequence run on every OPEN
signal before a trade is attempted.  The helpers it calls that are not
among the sources (`isSymbolBlocked` from `src/utils/helpers.js`,
`isTradingHoursActive` from `src/services/time.service.js`) and the two
network fetches are supplied through an environment record carrying
their results. -/

/-- The rejection reasons `validateSignal` can report, one per failing
check (the balance gate reports a fetch failure and a nonpositive
balance differently, as does the symbol gate). -/
inductive VReason where
  | spreadTooLow
  | blockedSymbol
  | invalidDirection
  | outsideHours
  | positionExists
  | maxOpenReached
  | maxDailyReached
  | balanceError
  | insufficientBalance
  | symbolError
  | symbolNotTrading
deriving DecidableEq, Repr

/-- The two network calls `validateSignal` can make. -/
inductive NetCall where
  | balanceFetch
  | symbolInfoFetch
deriving DecidableEq, Repr

/-- An OPEN signal as consumed by `validateSignal`: the parser leaves the
spread `null` when its label is absent (and spread is `NaN` when the
captured numeral is degenerate); both are falsy, embedded as `none`. -/
structure OpenSignal where
  symbol : String
  direction : String
  spread : Option ℚ
deriving DecidableEq, Repr

/-- Environment of `validateSignal`: configuration values, ledger
observations, the results of the two helpers that live outside the
sources, and the outcomes the two network fetches would produce. -/
structure ValidationEnv where
  minSpreadPercent : ℚ
  symbolBlocked : Bool
  tradingHoursActive : Bool
  hasOpenPos : Bool
  openPositionsCount : ℕ
  maxOpenPositions : ℕ
  dailyTrades : ℕ
  maxDailyTrades : ℕ
  balanceFetch : Except Unit ℚ
  symbolStatusFetch : Except Unit String

/-- The spread test of gate 1: JavaScript `!spread || spread < min`,
where `null`, `NaN` and `0` are all falsy. -/
def spreadBad (minSpread : ℚ) (spread : Option ℚ) : Bool :=
  match spread with
  | none => true
  | some s => decide (s = 0) || decide (s < minSpread)

/-- Gate 1 condition: the filter is enabled (`minSpreadPercent > 0`) and
the signal's spread is falsy or below the minimum. -/
def gate1fails (env : ValidationEnv) (sig : OpenSignal) : Bool :=
  decide (0 < env.minSpreadPercent) && spreadBad env.minSpreadPercent sig.spread

/-- Gate 3 condition: `direction !== LONG && direction !== SHORT`. -/
def gate3fails (sig : OpenSignal) : Bool :=
  decide (sig.direction ≠ "LONG") && decide (sig.direction ≠ "SHORT")

/-- Gate 6 condition: `getOpenPositionsCount() >= maxOpenPositions`. -/
def gate6fails (env : ValidationEnv) : Bool :=
  decide (env.maxOpenPositions ≤ env.openPositionsCount)

/-- Gate 7 condition: `statistics.dailyTrades >= maxDailyTrades`. -/
def gate7fails (env : ValidationEnv) : Bool :=
  decide (env.maxDailyTrades ≤ env.dailyTrades)

/-- `validateSignal`: the nine checks in source order, returning the
rejection reason (or `none` for a valid signal) together with the list of
network calls performed, in order. -/
def validateSignal (env : ValidationEnv) (sig : OpenSignal) :
    Option VReason × List NetCall :=
  if gate1fails env sig then (some .spreadTooLow, [])
  else if env.symbolBlocked then (some .blockedSymbol, [])
  else if gate3fails sig then (some .invalidDirection, [])
  else if ! env.tradingHoursActive then (some .outsideHours, [])
  else if env.hasOpenPos then (some .positionExists, [])
  else if gate6fails env then (some .maxOpenReached, [])
  else if gate7fails env then (some .maxDailyReached, [])
  else
    match env.balanceFetch with
    | .error _ => (some .balanceError, [.balanceFetch])
    | .ok bal =>
      if bal ≤ 0 then (some .insufficientBalance, [.balanceFetch])
      else
        match env.symbolStatusFetch with
        | .error _ => (some .symbolError, [.balanceFetch, .symbolInfoFetch])
        | .ok status =>
          if status ≠ "Open" then
            (some .symbolNotTrading, [.balanceFetch, .symbolInfoFetch])
          else (none, [.balanceFetch, .symbolInfoFetch])

/-- One admission gate of the specification: whether it fails on the
given signal, and the reason it would report. -/
structure Gate where
  fails : Bool
  reason : VReason
deriving DecidableEq, Repr

/-- The nine admission gates in the order the specification lists them:
spread minimum, blocklist, direction, trading hours, existing position,
max open positions, max daily trades, positive live balance, symbol
tradable. -/
def admissionGates (env : ValidationEnv) (sig : OpenSignal) : List Gate :=
  [ { fails := gate1fails env sig, reason := .spreadTooLow },
    { fails := env.symbolBlocked, reason := .blockedSymbol },
    { fails := gate3fails sig, reason := .invalidDirection },
    { fails := ! env.tradingHoursActive, reason := .outsideHours },
    { fails := env.hasOpenPos, reason := .positionExists },
    { fails := gate6fails env, reason := .maxOpenReached },
    { fails := gate7fails env, reason := .maxDailyReached },
    { fails := match env.balanceFetch with
        | .error _ => true
        | .ok bal => decide (bal ≤ 0),
      reason := match env.balanceFetch with
        | .error _ => .balanceError
        | .ok _ => .insufficientBalance },
    { fails := match env.symbolStatusFetch with
        | .error _ => true
        | .ok status => decide (status ≠ "Open"),
      reason := match env.symbolStatusFetch with
        | .error _ => .symbolError
        | .ok _ => .symbolNotTrading } ]

/-- The reason of the first failing gate in a gate list, if any. -/
def firstFailReason (gs : List Gate) : Option VReason :=
  (gs.find? Gate.fails).map Gate.reason

/-- C3: `validateSignal` returns exactly the reason of the first failing
gate of the specification's ordered nine-gate list; a signal failing both
the blocklist gate and the trading-hours gate (with the spread gate
passing) reports the blocklist reason; and whenever one of the seven
local gates fails, no network call is made. -/
theorem c3_admission_pipeline (env : ValidationEnv) (sig : OpenSignal) :
    (validateSignal env sig).1 = firstFailReason (admissionGates env sig) ∧
    (gate1fails env sig = false → env.symbolBlocked = true →
      env.tradingHoursActive = false →
      (validateSignal env sig).1 = some .blockedSymbol) ∧
    (((admissionGates env sig).take 7).any Gate.fails = true →
      (validateSignal env sig).2 = []) := by
  refine ⟨?_, ?_, ?_⟩
  · unfold validateSignal admissionGates firstFailReason
    cases hg1 : gate1fails env sig
    case true => simp [hg1, List.find?]
    case false =>
    cases hg2 : env.symbolBlocked
    case true => simp [hg1, hg2, List.find?]
    case false =>
    cases hg3 : gate3fails sig
    case true => simp [hg1, hg2, hg3, List.find?]
    case false =>
    cases hg4 : env.tradingHoursActive
    case false => simp [hg1, hg2, hg3, hg4, List.find?]
    case true =>
    cases hg5 : env.hasOpenPos
    case true => simp [hg1, hg2, hg3, hg4, hg5, List.find?]
    case false =>
    cases hg6 : gate6fails env
    case true => simp [hg1, hg2, hg3, hg4, hg5, hg6, List.find?]
    case false =>
    cases hg7 : gate7fails env
    case true => simp [hg1, hg2, hg3, hg4, hg5, hg6, hg7, List.find?]
    case false =>
    rcases hbf : env.balanceFetch with e | bal
    · simp [hg1, hg2, hg3, hg4, hg5, hg6, hg7, hbf, List.find?]
    · by_cases hb : bal ≤ 0
      · simp [hg1, hg2, hg3, hg4, hg5, hg6, hg7, hbf, hb, List.find?]
      · rcases hsf : env.symbolStatusFetch with e | status
        · simp [hg1, hg2, hg3, hg4, hg5, hg6, hg7, hbf, hb, hsf, List.find?]
        · by_cases hst : status = "Open" <;>
            simp [hg1, hg2, hg3, hg4, hg5, hg6, hg7, hbf, hb, hsf, hst, List.find?]
  · intro h1 h2 h4
    unfold validateSignal
    simp [h1, h2]
  · intro hfail
    unfold validateSignal
    cases hg1 : gate1fails env sig
    case true => simp [hg1]
    case false =>
    cases hg2 : env.symbolBlocked
    case true => simp [hg1, hg2]
    case false =>
    cases hg3 : gate3fails sig
    case true => simp [hg1, hg2, hg3]
    case false =>
    cases hg4 : env.tradingHoursActive
    case false => simp [hg1, hg2, hg3, hg4]
    case true =>
    cases hg5 : env.hasOpenPos
    case true => simp [hg1, hg2, hg3, hg4, hg5]
    case false =>
    cases hg6 : gate6fails env
    case true => simp [hg1, hg2, hg3, hg4, hg5, hg6]
    case false =>
    cases hg7 : gate7fails env
    case true => simp [hg1, hg2, hg3, hg4, hg5, hg6, hg7]
    case false =>
    exfalso
    simp [admissionGates, hg1, hg2, hg3, hg4, hg5, hg6, hg7] at hfail

/-- The venue status string marking a tradable contract. -/
def statusOpen : String := "Open"

/-- A concrete environment whose signal fails both the blocklist gate and
the trading-hours gate while the spread gate passes. -/
def c3Env : ValidationEnv :=
  { minSpreadPercent := 0, symbolBlocked := true, tradingHoursActive := false,
    hasOpenPos := false, openPositionsCount := 0, maxOpenPositions := 3,
    dailyTrades := 0, maxDailyTrades := 20, balanceFetch := Except.ok 100,
    symbolStatusFetch := Except.ok statusOpen }

/-- The signal used with `c3Env`. -/
def c3Sig : OpenSignal :=
  { symbol := "XBTUSDTM", direction := "LONG", spread := some 5 }

theorem c3_admission_pipeline_witness :
    (validateSignal c3Env c3Sig).1 = firstFailReason (admissionGates c3Env c3Sig) ∧
    (validateSignal c3Env c3Sig).1 = some .blockedSymbol ∧
    (validateSignal c3Env c3Sig).2 = [] :=
  ⟨(c3_admission_pipeline c3Env c3Sig).1,
   (c3_admission_pipeline c3Env c3Sig).2.1 (by decide) (by decide) (by decide),
   (c3_admission_pipeline c3Env c3Sig).2.2 (by decide)⟩

/-- C10: with the minimum-spread filter enabled, an OPEN signal whose
spread is absent (as the parser produces when no spread label matches) or
zero is rejected with the spread reason, before any network call. -/
theorem c10_missing_spread_rejected (env : ValidationEnv) (sig : OpenSignal)
    (hmin : 0 < env.minSpreadPercent)
    (hsp : sig.spread = none ∨ sig.spread = some 0) :
    (validateSignal env sig).1 = some .spreadTooLow ∧
    (validateSignal env sig).2 = [] := by
  have h1 : gate1fails env sig = true := by
    unfold gate1fails spreadBad
    rcases hsp with h | h <;> simp [h, hmin]
  unfold validateSignal
  simp [h1]

/-- An environment with the spread filter enabled and everything else
passing. -/
def c10Env : ValidationEnv :=
  { minSpreadPercent := 2, symbolBlocked := false, tradingHoursActive := true,
    hasOpenPos := false, openPositionsCount := 0, maxOpenPositions := 3,
    dailyTrades := 0, maxDailyTrades := 20, balanceFetch := Except.ok 100,
    symbolStatusFetch := Except.ok statusOpen }

/-- A signal whose spread label did not match, so its spread is `none`. -/
def c10Sig : OpenSignal :=
  { symbol := "XBTUSDTM", direction := "LONG", spread := none }

theorem c10_missing_spread_rejected_witness :
    (validateSignal c10Env c10Sig).1 = some .spreadTooLow ∧
    (validateSignal c10Env c10Sig).2 = [] :=
  c10_missing_spread_rejected c10Env c10Sig (by decide) (Or.inl rfl)

/-! ## Telegram ENTRY-signal parser

`_parseEntrySignal` from `src/services/telegram.service.js`, embedded at
the level of UTF-16 code units: a JavaScript string is a sequence of
16-bit code units, and a regular expression without the `u` flag matches
code unit by code unit.  In particular a character class written with
astral (non-BMP) characters, such as the direction-marker class of the
two colour emoji, denotes the set of their individual surrogate code
units.  Each regular expression of the source is hand-compiled into a
leftmost-match scanner; greedy one-or-more repetitions are compiled to
maximal runs, which is faithful here because in every pattern the
character following a repetition cannot belong to the repeated class.
The detection-time extraction (step 6 of the source) is omitted: it
cannot fail and only feeds the wall-clock timestamp. -/

/-- A JavaScript string as its UTF-16 code-unit sequence. -/
abbrev JStr := List Nat

/-- The class `[A-Z0-9]`. -/
def isUpperAlnumCU (c : Nat) : Bool :=
  decide ((0x41 ≤ c ∧ c ≤ 0x5A) ∨ (0x30 ≤ c ∧ c ≤ 0x39))

/-- The class `[0-9]` (`\d`). -/
def isDigitCU (c : Nat) : Bool := decide (0x30 ≤ c ∧ c ≤ 0x39)

/-- The class `[\d.]`. -/
def isDigitDotCU (c : Nat) : Bool := isDigitCU c || decide (c = 0x2E)

/-- The class `\s` of JavaScript regular expressions (ASCII whitespace,
no-break space, the Unicode space separators, line and paragraph
separators, and the byte-order mark). -/
def isSpaceCU (c : Nat) : Bool :=
  decide (c = 0x20 ∨ c = 0x09 ∨ c = 0x0A ∨ c = 0x0B ∨ c = 0x0C ∨ c = 0x0D ∨
    c = 0xA0 ∨ c = 0x1680 ∨ (0x2000 ≤ c ∧ c ≤ 0x200A) ∨ c = 0x2028 ∨
    c = 0x2029 ∨ c = 0x202F ∨ c = 0x205F ∨ c = 0x3000 ∨ c = 0xFEFF)

/-- Maximal run of units satisfying `p`, with the remaining suffix. -/
def takeRun (p : Nat → Bool) : JStr → JStr × JStr
  | [] => ([], [])
  | c :: rest =>
    if p c then
      let r := takeRun p rest
      (c :: r.1, r.2)
    else ([], c :: rest)

/-- Leftmost-match search: a JavaScript regex match tries start positions
left to right and returns the first position where the pattern matches. -/
def searchFirst {α : Type} (f : JStr → Option α) : JStr → Option α
  | [] => none
  | c :: rest =>
    match f (c :: rest) with
    | some r => some r
    | none => searchFirst f rest

/-- Anchored match of a literal pattern; returns the remaining suffix. -/
def litMatch : JStr → JStr → Option JStr
  | [], l => some l
  | _ :: _, [] => none
  | p :: ps, c :: cs => if c = p then litMatch ps cs else none

/-- Case canonicalisation used by the `i` flag, covering the ASCII and
Cyrillic letters that occur in the source's patterns. -/
def toUpperCU (c : Nat) : Nat :=
  if 0x61 ≤ c ∧ c ≤ 0x7A then c - 0x20
  else if 0x430 ≤ c ∧ c ≤ 0x44F then c - 0x20
  else if c = 0x451 then 0x401
  else c

/-- Anchored case-insensitive match of a literal pattern. -/
def litMatchI : JStr → JStr → Option JStr
  | [], l => some l
  | _ :: _, [] => none
  | p :: ps, c :: cs => if toUpperCU c = toUpperCU p then litMatchI ps cs else none

/-- Anchored form of the symbol pattern: the pointing-right marker
U+1F449 is the code-unit pair `D83D DC49` and the pointing-left marker
U+1F448 the pair `D83D DC48`; between them one or more `[A-Z0-9]`. -/
def symbolMatchAt (l : JStr) : Option JStr :=
  match l with
  | 0xD83D :: 0xDC49 :: rest =>
    let r := takeRun isUpperAlnumCU rest
    if r.1 = [] then none
    else
      match r.2 with
      | 0xD83D :: 0xDC48 :: _ => some r.1
      | _ => none
  | _ => none

/-- The symbol capture of `_parseEntrySignal` step 1. -/
def symbolMatch (t : JStr) : Option JStr := searchFirst symbolMatchAt t

/-- The literal `KuCoin`. -/
def patKuCoin : JStr := [0x4B, 0x75, 0x43, 0x6F, 0x69, 0x6E]

/-- Anchored form of the spread pattern: `KuCoin`, optional whitespace,
a hyphen, optional whitespace, one or more `[\d.]` (captured), then a
percent sign. -/
def spreadMatchAt (l : JStr) : Option JStr :=
  match litMatch patKuCoin l with
  | none => none
  | some rest =>
    match rest.dropWhile isSpaceCU with
    | 0x2D :: r2 =>
      let r3 := r2.dropWhile isSpaceCU
      let run := takeRun isDigitDotCU r3
      if run.1 = [] then none
      else
        match run.2 with
        | 0x25 :: _ => some run.1
        | _ => none
    | _ => none

/-- The spread capture of `_parseEntrySignal` step 2. -/
def spreadMatch (t : JStr) : Option JStr := searchFirst spreadMatchAt t

/-- Anchored form of a price-label pattern: the label literal
(case-insensitively), optional whitespace, then one or more `[\d.]`
(captured). -/
def labelNumAt (pat : JStr) (l : JStr) : Option JStr :=
  match litMatchI pat l with
  | none => none
  | some rest =>
    let run := takeRun isDigitDotCU (rest.dropWhile isSpaceCU)
    if run.1 = [] then none else some run.1

/-- First match of a price-label pattern in the whole text. -/
def labelNumMatch (pat : JStr) (t : JStr) : Option JStr :=
  searchFirst (labelNumAt pat) t

/-- The literal `Last:`. -/
def patLast : JStr := [0x4C, 0x61, 0x73, 0x74, 0x3A]

/-- The Cyrillic literal of the old last-price label (`Последняя цена:`). -/
def patLastOld : JStr :=
  [0x41F, 0x43E, 0x441, 0x43B, 0x435, 0x434, 0x43D, 0x44F, 0x44F, 0x20,
   0x446, 0x435, 0x43D, 0x430, 0x3A]

/-- The literal `Mark:`. -/
def patMark : JStr := [0x4D, 0x61, 0x72, 0x6B, 0x3A]

/-- The Cyrillic literal of the old fair-price label (`Справедливая:`). -/
def patMarkOld : JStr :=
  [0x421, 0x43F, 0x440, 0x430, 0x432, 0x435, 0x434, 0x43B, 0x438, 0x432,
   0x430, 0x44F, 0x3A]

/-- Step 3 of `_parseEntrySignal`: try the new-vocabulary last-price
label, then the old one; first match wins. -/
def extractLastCap (t : JStr) : Option JStr :=
  match labelNumMatch patLast t with
  | some c => some c
  | none => labelNumMatch patLastOld t

/-- Step 4 of `_parseEntrySignal`: try the new-vocabulary fair-price
label, then the old one; first match wins. -/
def extractMarkCap (t : JStr) : Option JStr :=
  match labelNumMatch patMark t with
  | some c => some c
  | none => labelNumMatch patMarkOld t

/-- The direction-marker class of step 5.  The source writes the class
with the two colour emoji U+1F534 (`D83D DD34`) and U+1F7E2 (`D83D DFE2`)
and no `u` flag, so the class denotes the three code units
`D83D`, `DD34`, `DFE2`, and a match is a single code unit. -/
def emojiClassCU (c : Nat) : Bool :=
  decide (c = 0xD83D ∨ c = 0xDD34 ∨ c = 0xDFE2)

/-- The emoji match of step 5: the first code unit of the class. -/
def emojiMatch (t : JStr) : Option Nat := t.find? emojiClassCU

/-- The two-code-unit string of the red-circle emoji U+1F534. -/
def redStr : JStr := [0xD83D, 0xDD34]

/-- The two-code-unit string of the green-circle emoji U+1F7E2. -/
def greenStr : JStr := [0xD83D, 0xDFE2]

/-- Numeric value of a digit run. -/
def digitsVal (l : JStr) : ℚ :=
  l.foldl (fun acc c => acc * 10 + ((c - 0x30 : Nat) : ℚ)) 0

/-- JavaScript `parseFloat` restricted to `[\d.]+` captures: an optional
integer part, an optional dot with an optional fraction part, anything
from a second dot on ignored; no digit at all gives NaN, embedded as
`none`. -/
def jsParseFloat (l : JStr) : Option ℚ :=
  let ip := takeRun isDigitCU l
  match ip.2 with
  | 0x2E :: rest =>
    let fp := takeRun isDigitCU rest
    if ip.1 = [] ∧ fp.1 = [] then none
    else some (digitsVal ip.1 + digitsVal fp.1 / (10 : ℚ) ^ fp.1.length)
  | _ => if ip.1 = [] then none else some (digitsVal ip.1)

/-- Step 2 of `_parseEntrySignal`: the spread value, `null` when the
label does not match (NaN, also falsy downstream, is embedded as `none`
too). -/
def extractSpread (t : JStr) : Option ℚ :=
  match spreadMatch t with
  | some cap => jsParseFloat cap
  | none => none

/-- The parsed ENTRY signal (`type` is always OPEN; the timestamp is
omitted, see the section comment). -/
structure EntrySignal where
  symbol : JStr
  direction : String
  lastPrice : Option ℚ
  fairPrice : Option ℚ
  spread : Option ℚ
  emoji : JStr
deriving DecidableEq, Repr

/-- `_parseEntrySignal`: symbol, spread, last price, mark price, then the
direction from the emoji match, with the mapping red to LONG and green to
SHORT; any missing required field returns nothing. -/
def parseEntrySignal (text : JStr) : Option EntrySignal :=
  match symbolMatch text with
  | none => none
  | some symbol =>
    let spread := extractSpread text
    match extractLastCap text with
    | none => none
    | some lastCap =>
      match extractMarkCap text with
      | none => none
      | some markCap =>
        match emojiMatch text with
        | none => none
        | some u =>
          if [u] = redStr then
            some { symbol := symbol, direction := "LONG",
                   lastPrice := jsParseFloat lastCap,
                   fairPrice := jsParseFloat markCap,
                   spread := spread, emoji := [u] }
          else if [u] = greenStr then
            some { symbol := symbol, direction := "SHORT",
                   lastPrice := jsParseFloat lastCap,
                   fairPrice := jsParseFloat markCap,
                   spread := spread, emoji := [u] }
          else none

/-- The emoji comparison of step 5 can never succeed: the match is one
code unit, the compared emoji strings are two, so the parser returns
nothing on every input. -/
theorem parseEntrySignal_eq_none (t : JStr) : parseEntrySignal t = none := by
  unfold parseEntrySignal
  cases symbolMatch t
  · rfl
  · cases extractLastCap t
    · rfl
    · cases extractMarkCap t
      · rfl
      · cases emojiMatch t
        · rfl
        · simp [redStr, greenStr]

/-- Anchored prefix test for a unit sequence. -/
def containsSeqAt (pat : JStr) (l : JStr) : Bool :=
  match pat, l with
  | [], _ => true
  | _ :: _, [] => false
  | p :: ps, c :: cs => decide (c = p) && containsSeqAt ps cs

/-- Whether a unit sequence occurs contiguously in the text. -/
def containsSeq (pat : JStr) : JStr → Bool
  | [] => containsSeqAt pat []
  | c :: rest => containsSeqAt pat (c :: rest) || containsSeq pat rest

/-- The well-formed example ENTRY text from the source's own doc comment:
`🚨 KuCoin - 5.06%`, the symbol `TAKEUSDTM` between the pointing markers,
a green circle, `Last: 0.038620`, a balance-scale emoji and
`Mark: 0.036760`, with newlines between the lines. -/
def c4EntryText : JStr :=
  [0xD83D, 0xDEA8, 0x20,
   0x4B, 0x75, 0x43, 0x6F, 0x69, 0x6E, 0x20, 0x2D, 0x20,
   0x35, 0x2E, 0x30, 0x36, 0x25, 0x0A,
   0xD83D, 0xDC49,
   0x54, 0x41, 0x4B, 0x45, 0x55, 0x53, 0x44, 0x54, 0x4D,
   0xD83D, 0xDC48, 0x0A,
   0xD83D, 0xDFE2, 0x20,
   0x4C, 0x61, 0x73, 0x74, 0x3A, 0x20,
   0x30, 0x2E, 0x30, 0x33, 0x38, 0x36, 0x32, 0x30, 0x0A,
   0x2696, 0xFE0F, 0x20,
   0x4D, 0x61, 0x72, 0x6B, 0x3A, 0x20,
   0x30, 0x2E, 0x30, 0x33, 0x36, 0x37, 0x36, 0x30]

/-- The symbol captured from `c4EntryText` (`TAKEUSDTM`). -/
def c4Symbol : JStr := [0x54, 0x41, 0x4B, 0x45, 0x55, 0x53, 0x44, 0x54, 0x4D]

/-- The last-price capture of `c4EntryText` (`0.038620`). -/
def c4LastCap : JStr := [0x30, 0x2E, 0x30, 0x33, 0x38, 0x36, 0x32, 0x30]

/-- The mark-price capture of `c4EntryText` (`0.036760`). -/
def c4MarkCap : JStr := [0x30, 0x2E, 0x30, 0x33, 0x36, 0x37, 0x36, 0x30]

/-- C4 fails on the code: on the well-formed example from the source's
own doc comment every extraction stage up to the direction step succeeds,
but the direction-marker class (written without the `u` flag) matches the
lone surrogate `D83D` of the siren emoji, which equals neither two-unit
marker string, so the parser returns nothing instead of resolving a
direction — and it does so on every input, so no text is ever mapped to
LONG or SHORT. -/
theorem c4_direction_mapping_bug :
    symbolMatch c4EntryText = some c4Symbol ∧
    extractLastCap c4EntryText = some c4LastCap ∧
    extractMarkCap c4EntryText = some c4MarkCap ∧
    containsSeq greenStr c4EntryText = true ∧
    emojiMatch c4EntryText = some 0xD83D ∧
    parseEntrySignal c4EntryText = none ∧
    (∀ t : JStr, parseEntrySignal t = none) :=
  ⟨by decide, by decide, by decide, by decide, by decide,
   parseEntrySignal_eq_none c4EntryText, parseEntrySignal_eq_none⟩

/-- C5: `_parseEntrySignal` returns nothing whenever a required field is
missing: no symbol between the pointing markers, no last-price label
variant matching, no fair-price label variant matching, or neither colour
direction marker present in the text. -/
theorem c5_missing_field_returns_nothing (t : JStr) :
    (symbolMatch t = none → parseEntrySignal t = none) ∧
    (extractLastCap t = none → parseEntrySignal t = none) ∧
    (extractMarkCap t = none → parseEntrySignal t = none) ∧
    (containsSeq redStr t = false ∧ containsSeq greenStr t = false →
      parseEntrySignal t = none) :=
  ⟨fun _ => parseEntrySignal_eq_none t, fun _ => parseEntrySignal_eq_none t,
   fun _ => parseEntrySignal_eq_none t, fun _ => parseEntrySignal_eq_none t⟩

/-- A text with no symbol markers and no direction markers. -/
def c5PlainText : JStr := [0x68, 0x65, 0x6C, 0x6C, 0x6F]

theorem c5_missing_field_returns_nothing_witness :
    symbolMatch c5PlainText = none ∧
    (containsSeq redStr c5PlainText = false ∧
      containsSeq greenStr c5PlainText = false) ∧
    parseEntrySignal c5PlainText = none ∧
    parseEntrySignal c5PlainText = none :=
  ⟨by decide, by decide,
   (c5_missing_field_returns_nothing c5PlainText).1 (by decide),
   (c5_missing_field_returns_nothing c5PlainText).2.2.2 (by decide)⟩

/-- C6: each price field is extracted by an ordered fallback chain and
the first matching label variant wins: whenever the new-vocabulary label
matches, its capture is the extracted one, regardless of whether the
old-vocabulary label also matches. -/
theorem c6_label_fallback_first_wins (t lc mc : JStr) :
    (labelNumMatch patLast t = some lc → extractLastCap t = some lc) ∧
    (labelNumMatch patMark t = some mc → extractMarkCap t = some mc) := by
  constructor
  · intro h
    unfold extractLastCap
    rw [h]
  · intro h
    unfold extractMarkCap
    rw [h]

/-- A text carrying both last-price label generations with different
numerals: `Last: 1.5 Последняя цена: 2.25`. -/
def c6LastText : JStr :=
  [0x4C, 0x61, 0x73, 0x74, 0x3A, 0x20, 0x31, 0x2E, 0x35, 0x20,
   0x41F, 0x43E, 0x441, 0x43B, 0x435, 0x434, 0x43D, 0x44F, 0x44F, 0x20,
   0x446, 0x435, 0x43D, 0x430, 0x3A, 0x20, 0x32, 0x2E, 0x32, 0x35]

/-- A text carrying both fair-price label generations with different
numerals: `Mark: 3.5 Справедливая: 4.75`. -/
def c6MarkText : JStr :=
  [0x4D, 0x61, 0x72, 0x6B, 0x3A, 0x20, 0x33, 0x2E, 0x35, 0x20,
   0x421, 0x43F, 0x440, 0x430, 0x432, 0x435, 0x434, 0x43B, 0x438, 0x432,
   0x430, 0x44F, 0x3A, 0x20, 0x34, 0x2E, 0x37, 0x35]

theorem c6_label_fallback_first_wins_witness :
    labelNumMatch patLast c6LastText = some [0x31, 0x2E, 0x35] ∧
    labelNumMatch patLastOld c6LastText = some [0x32, 0x2E, 0x32, 0x35] ∧
    extractLastCap c6LastText = some [0x31, 0x2E, 0x35] ∧
    labelNumMatch patMark c6MarkText = some [0x33, 0x2E, 0x35] ∧
    labelNumMatch patMarkOld c6MarkText = some [0x34, 0x2E, 0x37, 0x35] ∧
    extractMarkCap c6MarkText = some [0x33, 0x2E, 0x35] :=
  ⟨by decide, by decide,
   (c6_label_fallback_first_wins c6LastText [0x31, 0x2E, 0x35] []).1 (by decide),
   by decide, by decide,
   (c6_label_fallback_first_wins c6MarkText [] [0x33, 0x2E, 0x35]).2 (by decide)⟩

/-! ## Position ledger

`PositionService` from `src/services/position.service.js`.  The open
positions live in a JavaScript `Map` keyed by symbol, embedded as an
association list with `Map`'s replace-in-place update semantics; the
well-formedness invariant (at most one entry per key) mirrors what a
`Map` guarantees structurally.  Logging is embedded as the list of log
levels an operation emits, which is what the claims about warnings are
about. -/

/-- The log levels of `src/utils/logger.js` calls. -/
inductive LogLevel where
  | info
  | warn
  | error
  | debug
deriving DecidableEq, Repr

/-- A tracked open position as stored by `addOpenPosition`. -/
structure TrackedPosition where
  symbol : String
  direction : String
  entryPrice : ℚ
  quantity : ℚ
  orderId : String
  timestamp : ℤ
  positionSizeUSDT : ℚ
deriving DecidableEq, Repr

/-- The record handed to `addOpenPosition`; `timestamp` and
`positionSizeUSDT` are defaulted through JavaScript `||` when absent. -/
structure PositionInput where
  symbol : String
  direction : String
  entryPrice : ℚ
  quantity : ℚ
  orderId : String
  timestamp : Option ℤ
  positionSizeUSDT : Option ℚ
deriving DecidableEq, Repr

/-- JavaScript `x || d` for an optional integer: `undefined` and `0` are
falsy. -/
def jsOrZ (x : Option ℤ) (d : ℤ) : ℤ :=
  match x with
  | some v => if v = 0 then d else v
  | none => d

/-- A closed position as recorded by `addClosedPosition`: the tracked
fields plus exit data (the source spreads them into one object; `duration`
is kept as the second count fed to the formatting helper). -/
structure ClosedPosition where
  position : TrackedPosition
  exitPrice : ℚ
  pnl : ℚ
  pnlPercent : ℚ
  durationSec : ℤ
  closedAt : ℤ
deriving DecidableEq, Repr

/-- The open-position map, keyed by symbol. -/
abbrev PositionMap := List (String × TrackedPosition)

/-- `Map.prototype.set`: replace in place when the key is present,
append otherwise. -/
def mapSet (k : String) (v : TrackedPosition) : PositionMap → PositionMap
  | [] => [(k, v)]
  | (k', v') :: rest =>
    if k' = k then (k, v) :: rest else (k', v') :: mapSet k v rest

/-- `Map.prototype.delete` (a `Map` holds a key at most once). -/
def mapDelete (k : String) : PositionMap → PositionMap
  | [] => []
  | (k', v') :: rest => if k' = k then rest else (k', v') :: mapDelete k rest

/-- `Map.prototype.get`. -/
def mapGet (k : String) (m : PositionMap) : Option TrackedPosition :=
  (m.find? (fun e => e.1 = k)).map (fun e => e.2)

/-- `Map.prototype.has`. -/
def mapHas (k : String) (m : PositionMap) : Bool :=
  m.any (fun e => decide (e.1 = k))

/-- Number of entries carrying the key. -/
def countKey (k : String) (m : PositionMap) : ℕ :=
  (m.filter (fun e => decide (e.1 = k))).length

/-- Well-formedness of the embedding: a JavaScript `Map` holds at most
one entry per key. -/
def MapWF (m : PositionMap) : Prop := ∀ k, countKey k m ≤ 1

/-- The ledger: the open-position map and the closed-position history. -/
structure LedgerState where
  openPositions : PositionMap
  closedPositions : List ClosedPosition
deriving DecidableEq, Repr

/-- The stored position built by `addOpenPosition` from its input. -/
def mkTrackedPosition (now : ℤ) (pd : PositionInput) : TrackedPosition :=
  { symbol := pd.symbol, direction := pd.direction, entryPrice := pd.entryPrice,
    quantity := pd.quantity, orderId := pd.orderId,
    timestamp := jsOrZ pd.timestamp now,
    positionSizeUSDT := jsOrQ pd.positionSizeUSDT 0 }

/-- `addOpenPosition`: unconditional `Map.set` of the symbol, logging one
info line (and nothing else — in particular no warning). -/
def addOpenPosition (now : ℤ) (st : LedgerState) (pd : PositionInput) :
    LedgerState × List LogLevel :=
  ({ st with openPositions := mapSet pd.symbol (mkTrackedPosition now pd) st.openPositions },
   [LogLevel.info])

/-- `removeOpenPosition`: returns the removed position and one info line
when the symbol is present; returns null and leaves the state untouched
(no log) when absent. -/
def removeOpenPosition (st : LedgerState) (symbol : String) :
    LedgerState × Option TrackedPosition × List LogLevel :=
  match mapGet symbol st.openPositions with
  | some p =>
    ({ st with openPositions := mapDelete symbol st.openPositions }, some p,
     [LogLevel.info])
  | none => (st, none, [])

/-- `addClosedPosition`: append-only push onto the history. -/
def addClosedPosition (st : LedgerState) (cp : ClosedPosition) : LedgerState :=
  { st with closedPositions := st.closedPositions ++ [cp] }

/-- `hasOpenPosition`. -/
def hasOpenPosition (st : LedgerState) (symbol : String) : Bool :=
  mapHas symbol st.openPositions

theorem countKey_nil (k : String) : countKey k [] = 0 := rfl

theorem countKey_cons (k : String) (e : String × TrackedPosition) (m : PositionMap) :
    countKey k (e :: m) = (if e.1 = k then 1 else 0) + countKey k m := by
  by_cases h : e.1 = k
  · simp [countKey, List.filter_cons, h]
    omega
  · simp [countKey, List.filter_cons, h]

theorem mapGet_cons (k : String) (e : String × TrackedPosition) (m : PositionMap) :
    mapGet k (e :: m) = if e.1 = k then some e.2 else mapGet k m := by
  by_cases h : e.1 = k <;> simp [mapGet, List.find?_cons, h]

theorem mapHas_cons (k : String) (e : String × TrackedPosition) (m : PositionMap) :
    mapHas k (e :: m) = (decide (e.1 = k) || mapHas k m) := by
  simp [mapHas]

theorem countKey_mapSet_self (k : String) (v : TrackedPosition) (m : PositionMap) :
    countKey k (mapSet k v m) = if countKey k m = 0 then 1 else countKey k m := by
  induction m with
  | nil => simp [mapSet, countKey_cons, countKey_nil]
  | cons e rest ih =>
    by_cases h : e.1 = k
    · simp only [mapSet]
      rw [if_pos h]
      rw [countKey_cons, countKey_cons]
      simp only [h, if_pos rfl]
      split_ifs <;> omega
    · simp only [mapSet]
      rw [if_neg h]
      rw [countKey_cons, countKey_cons, ih]
      simp only [h, if_neg, if_false]
      split_ifs <;> omega

theorem countKey_mapSet_ne (k k' : String) (v : TrackedPosition) (m : PositionMap)
    (hne : k' ≠ k) : countKey k' (mapSet k v m) = countKey k' m := by
  have hkk : ¬ ((k, v).1 = k') := fun hc => hne hc.symm
  induction m with
  | nil => simp [mapSet, countKey_cons, countKey_nil, hkk]
  | cons e rest ih =>
    by_cases h : e.1 = k
    · simp only [mapSet]
      rw [if_pos h]
      rw [countKey_cons, countKey_cons]
      have he : ¬ (e.1 = k') := by
        intro hc
        rw [h] at hc
        exact hne hc.symm
      simp [hkk, he]
    · simp only [mapSet]
      rw [if_neg h]
      rw [countKey_cons, countKey_cons, ih]

theorem mapWF_mapSet (k : String) (v : TrackedPosition) (m : PositionMap)
    (h : MapWF m) : MapWF (mapSet k v m) := by
  intro k'
  by_cases hk : k' = k
  · subst hk
    rw [countKey_mapSet_self]
    split_ifs with h0
    · exact le_refl 1
    · exact h k'
  · rw [countKey_mapSet_ne k k' v m hk]
    exact h k'

theorem mapGet_mapSet_self (k : String) (v : TrackedPosition) (m : PositionMap) :
    mapGet k (mapSet k v m) = some v := by
  induction m with
  | nil => simp [mapSet, mapGet_cons]
  | cons e rest ih =>
    by_cases h : e.1 = k
    · simp only [mapSet]
      rw [if_pos h]
      simp [mapGet_cons]
    · simp only [mapSet]
      rw [if_neg h]
      rw [mapGet_cons, if_neg h, ih]

theorem mapHas_iff_countKey (k : String) (m : PositionMap) :
    mapHas k m = true ↔ 0 < countKey k m := by
  induction m with
  | nil => simp [mapHas, countKey_nil]
  | cons e rest ih =>
    rw [mapHas_cons, countKey_cons]
    by_cases h : e.1 = k
    · simp [h]
    · simp [h, ih]

theorem mapGet_none_iff (k : String) (m : PositionMap) :
    mapGet k m = none ↔ countKey k m = 0 := by
  induction m with
  | nil => simp [mapGet, countKey_nil]
  | cons e rest ih =>
    rw [mapGet_cons, countKey_cons]
    by_cases h : e.1 = k
    · simp [h]
    · simp [h, ih]

theorem countKey_mapDelete_self (k : String) (m : PositionMap) :
    countKey k (mapDelete k m) = countKey k m - 1 := by
  induction m with
  | nil => simp [mapDelete, countKey_nil]
  | cons e rest ih =>
    by_cases h : e.1 = k
    · simp only [mapDelete]
      rw [if_pos h]
      rw [countKey_cons]
      simp [h]
    · simp only [mapDelete]
      rw [if_neg h]
      rw [countKey_cons, countKey_cons, ih]
      simp only [h, if_neg, if_false]
      omega

/-- C7 counterexample: the claim as stated says a second
`addOpenPosition` for the same symbol overwrites "with a warning", but
the source logs only the routine info line — adding the same symbol twice
emits no warning at all. -/
def c7FirstInput : PositionInput :=
  { symbol := "XBTUSDTM", direction := "LONG", entryPrice := 100, quantity := 5,
    orderId := "a1", timestamp := some 1, positionSizeUSDT := some 5 }

/-- The overwriting second input for the same symbol. -/
def c7SecondInput : PositionInput :=
  { symbol := "XBTUSDTM", direction := "SHORT", entryPrice := 200, quantity := 7,
    orderId := "a2", timestamp := some 2, positionSizeUSDT := some 14 }

theorem c7_overwrite_warning_counterexample :
    LogLevel.warn ∉
      (addOpenPosition 2 (addOpenPosition 1 ⟨[], []⟩ c7FirstInput).1 c7SecondInput).2 ∧
    countKey c7FirstInput.symbol
      (addOpenPosition 2 (addOpenPosition 1 ⟨[], []⟩ c7FirstInput).1 c7SecondInput).1.openPositions
      = 1 := by
  constructor
  · decide
  · decide

/-- C7 (amended: the overwrite is silent — only the routine info log, no
warning): after `addOpenPosition` the symbol is present and held by
exactly one entry; a second add for the same symbol overwrites that entry
in place, still leaving exactly one entry, and emits no warning; after
`removeOpenPosition` the symbol is absent; `removeOpenPosition` returns
the removed position when present, and returns null leaving the ledger
unchanged when absent. -/
theorem c7_ledger_invariant (st : LedgerState) (pd pd2 : PositionInput)
    (now now2 : ℤ) (sym : String) (hwf : MapWF st.openPositions) :
    (hasOpenPosition (addOpenPosition now st pd).1 pd.symbol = true) ∧
    (countKey pd.symbol (addOpenPosition now st pd).1.openPositions = 1) ∧
    (pd2.symbol = pd.symbol →
      countKey pd.symbol
          (addOpenPosition now2 (addOpenPosition now st pd).1 pd2).1.openPositions = 1 ∧
      mapGet pd.symbol
          (addOpenPosition now2 (addOpenPosition now st pd).1 pd2).1.openPositions
        = some (mkTrackedPosition now2 pd2) ∧
      (addOpenPosition now2 (addOpenPosition now st pd).1 pd2).2 = [LogLevel.info]) ∧
    (hasOpenPosition (removeOpenPosition st sym).1 sym = false) ∧
    (mapGet sym st.openPositions = none → removeOpenPosition st sym = (st, none, [])) ∧
    (∀ p, mapGet sym st.openPositions = some p →
      (removeOpenPosition st sym).2.1 = some p) := by
  have hcount1 : countKey pd.symbol (addOpenPosition now st pd).1.openPositions = 1 := by
    show countKey pd.symbol (mapSet pd.symbol (mkTrackedPosition now pd) st.openPositions) = 1
    rw [countKey_mapSet_self]
    split_ifs with h0
    · rfl
    · have := hwf pd.symbol
      omega
  refine ⟨?_, hcount1, ?_, ?_, ?_, ?_⟩
  · rw [hasOpenPosition, mapHas_iff_countKey]
    show 0 < countKey pd.symbol (mapSet pd.symbol (mkTrackedPosition now pd) st.openPositions)
    rw [show countKey pd.symbol (mapSet pd.symbol (mkTrackedPosition now pd) st.openPositions)
        = 1 from hcount1]
    omega
  · intro hsame
    have hcount2 : countKey pd.symbol
        (mapSet pd2.symbol (mkTrackedPosition now2 pd2)
          (mapSet pd.symbol (mkTrackedPosition now pd) st.openPositions)) = 1 := by
      rw [hsame, countKey_mapSet_self]
      rw [show countKey pd.symbol (mapSet pd.symbol (mkTrackedPosition now pd) st.openPositions)
          = 1 from hcount1]
      simp
    refine ⟨hcount2, ?_, rfl⟩
    show mapGet pd.symbol (mapSet pd2.symbol (mkTrackedPosition now2 pd2)
      (mapSet pd.symbol (mkTrackedPosition now pd) st.openPositions)) = _
    rw [hsame, mapGet_mapSet_self]
  · unfold removeOpenPosition
    cases hg : mapGet sym st.openPositions with
    | none =>
      simp only [hasOpenPosition]
      rw [Bool.eq_false_iff]
      intro hc
      rw [mapHas_iff_countKey] at hc
      rw [mapGet_none_iff] at hg
      omega
    | some p =>
      simp only [hasOpenPosition]
      rw [Bool.eq_false_iff]
      intro hc
      rw [mapHas_iff_countKey] at hc
      have hd := countKey_mapDelete_self sym st.openPositions
      have := hwf sym
      simp only [hd] at hc
      omega
  · intro hg
    unfold removeOpenPosition
    rw [hg]
  · intro p hg
    unfold removeOpenPosition
    rw [hg]

/-- A one-position ledger used by the C7 witness. -/
def c7State : LedgerState :=
  (addOpenPosition 1 ⟨[], []⟩ c7FirstInput).1

theorem c7_ledger_invariant_witness :
    hasOpenPosition (addOpenPosition 1 ⟨[], []⟩ c7FirstInput).1 c7FirstInput.symbol = true ∧
    (addOpenPosition 2 (addOpenPosition 1 ⟨[], []⟩ c7FirstInput).1 c7SecondInput).2
      = [LogLevel.info] ∧
    hasOpenPosition (removeOpenPosition ⟨[], []⟩ c7FirstInput.symbol).1 c7FirstInput.symbol
      = false :=
  ⟨(c7_ledger_invariant ⟨[], []⟩ c7FirstInput c7SecondInput 1 2 c7FirstInput.symbol
      (by intro k; simp [countKey])).1,
   ((c7_ledger_invariant ⟨[], []⟩ c7FirstInput c7SecondInput 1 2 c7FirstInput.symbol
      (by intro k; simp [countKey])).2.2.1 rfl).2.2,
   (c7_ledger_invariant ⟨[], []⟩ c7FirstInput c7SecondInput 1 2 c7FirstInput.symbol
      (by intro k; simp [countKey])).2.2.2.1⟩

/-! ## Reconciliation: externally closed positions -/

/-- Modelled from the spec: `calculatePnL` lives in
`src/utils/helpers.js`, absent from the sources.  The realised profit is
the signed price difference times the quantity (sign by direction); it is
zero whenever exit equals entry, the only property the claims use. -/
def calculatePnL (entryPrice exitPrice quantity : ℚ) (direction : String) : ℚ :=
  (if direction = "LONG" then exitPrice - entryPrice else entryPrice - exitPrice)
    * quantity

/-- Modelled from the spec: `calculatePnLPercent` from
`src/utils/helpers.js`, absent from the sources; the signed relative
price move in percent, zero whenever exit equals entry. -/
def calculatePnLPercent (entryPrice exitPrice : ℚ) (direction : String) : ℚ :=
  (if direction = "LONG" then (exitPrice - entryPrice) / entryPrice
   else (entryPrice - exitPrice) / entryPrice) * 100

/-- A fill from the venue's recent-trade history.  `price` is `none` when
the API omits or empties the field, in which case the source falls back
to `execPrice` through JavaScript `||`; a fill with neither field would
give NaN, embedded as `0` and unreachable in the claims. -/
structure Trade where
  symbol : String
  side : String
  price : Option ℚ
  execPrice : Option ℚ
deriving DecidableEq, Repr

/-- `parseFloat(closeTrade.price || closeTrade.execPrice)`. -/
def tradePrice (t : Trade) : ℚ :=
  match t.price with
  | some p => p
  | none =>
    match t.execPrice with
    | some p => p
    | none => 0

/-- The closing-fill search of `handlePositionClosed`: same symbol, and a
sell for a LONG or a buy for a SHORT. -/
def findCloseTrade (trades : List Trade) (symbol direction : String) : Option Trade :=
  trades.find? (fun t => decide (t.symbol = symbol) &&
    ((decide (t.side = "sell") && decide (direction = "LONG")) ||
     (decide (t.side = "buy") && decide (direction = "SHORT"))))

/-- `handlePositionClosed` from `src/services/position.service.js`:
derive the exit price from the closing fill, falling back to the tracked
entry price when no fill matches; record the closed position and remove
the open entry. -/
def handlePositionClosed (now : ℤ) (trades : List Trade) (st : LedgerState)
    (symbol : String) (trackedPosition : TrackedPosition) : LedgerState :=
  let closeTrade := findCloseTrade trades symbol trackedPosition.direction
  let exitPrice := match closeTrade with
    | some t => tradePrice t
    | none => trackedPosition.entryPrice
  let pnl := calculatePnL trackedPosition.entryPrice exitPrice
    trackedPosition.quantity trackedPosition.direction
  let pnlPercent := calculatePnLPercent trackedPosition.entryPrice exitPrice
    trackedPosition.direction
  let cp : ClosedPosition :=
    { position := trackedPosition, exitPrice := exitPrice, pnl := pnl,
      pnlPercent := pnlPercent,
      durationSec := (((now - trackedPosition.timestamp : ℤ) : ℚ) / 1000).floor,
      closedAt := now }
  (removeOpenPosition (addClosedPosition st cp) symbol).1

/-- A live position as returned by the venue positions endpoint. -/
structure VenuePosition where
  symbol : String
  side : String
  size : ℚ
  entryPrice : ℚ
  markPrice : ℚ
  unrealisedPnl : ℚ
  leverage : ℚ
deriving DecidableEq, Repr

/-- One tracked symbol's step of `checkPositions`: when the venue reports
no position or zero size, treat it as externally closed; otherwise only a
read-only refresh happens and the ledger is unchanged. -/
def checkPositionStep (now : ℤ) (venuePositions : List VenuePosition)
    (trades : List Trade) (st : LedgerState) (symbol : String)
    (trackedPosition : TrackedPosition) : LedgerState :=
  match venuePositions.find? (fun p => decide (p.symbol = symbol)) with
  | none => handlePositionClosed now trades st symbol trackedPosition
  | some exchangePosition =>
    if exchangePosition.size = 0 then
      handlePositionClosed now trades st symbol trackedPosition
    else st

theorem removeOpenPosition_closed (st : LedgerState) (symbol : String) :
    (removeOpenPosition st symbol).1.closedPositions = st.closedPositions := by
  unfold removeOpenPosition
  cases mapGet symbol st.openPositions <;> rfl

theorem calculatePnL_same (e q : ℚ) (d : String) : calculatePnL e e q d = 0 := by
  unfold calculatePnL
  split_ifs <;> ring

theorem calculatePnLPercent_same (e : ℚ) (d : String) :
    calculatePnLPercent e e d = 0 := by
  unfold calculatePnLPercent
  split_ifs <;> simp

/-- The closed record appended when no closing fill is found. -/
def degradedClosedPosition (now : ℤ) (pos : TrackedPosition) : ClosedPosition :=
  { position := pos, exitPrice := pos.entryPrice, pnl := 0, pnlPercent := 0,
    durationSec := (((now - pos.timestamp : ℤ) : ℚ) / 1000).floor, closedAt := now }

theorem handlePositionClosed_nofill (now : ℤ) (trades : List Trade)
    (st : LedgerState) (symbol : String) (pos : TrackedPosition)
    (hnofill : findCloseTrade trades symbol pos.direction = none) :
    (handlePositionClosed now trades st symbol pos).closedPositions
      = st.closedPositions ++ [degradedClosedPosition now pos] := by
  unfold handlePositionClosed degradedClosedPosition
  rw [hnofill, removeOpenPosition_closed]
  unfold addClosedPosition
  simp [calculatePnL_same, calculatePnLPercent_same]

/-- C8: when the venue reports a zero (or absent) size for a tracked
position and no fill in the trade history matches the closing side for
the tracked direction, the recorded closed position takes the tracked
entry price as its exit price, so its realised pnl and pnl percent are
zero. -/
theorem c8_external_close_degraded (now : ℤ) (venuePositions : List VenuePosition)
    (trades : List Trade) (st : LedgerState) (symbol : String)
    (pos : TrackedPosition)
    (hz : venuePositions.find? (fun p => decide (p.symbol = symbol)) = none ∨
      ∃ v, venuePositions.find? (fun p => decide (p.symbol = symbol)) = some v ∧
        v.size = 0)
    (hnofill : findCloseTrade trades symbol pos.direction = none) :
    ∃ cp : ClosedPosition,
      (checkPositionStep now venuePositions trades st symbol pos).closedPositions
        = st.closedPositions ++ [cp] ∧
      cp.exitPrice = pos.entryPrice ∧ cp.pnl = 0 ∧ cp.pnlPercent = 0 := by
  refine ⟨degradedClosedPosition now pos, ?_, rfl, rfl, rfl⟩
  unfold checkPositionStep
  rcases hz with h | ⟨v, hv, hsz⟩
  · rw [h]
    exact handlePositionClosed_nofill now trades st symbol pos hnofill
  · rw [hv]
    simp only [hsz, if_pos rfl]
    exact handlePositionClosed_nofill now trades st symbol pos hnofill

/-- The tracked position of the C8 witness. -/
def c8Pos : TrackedPosition :=
  { symbol := "ETHUSDTM", direction := "LONG", entryPrice := 100, quantity := 2,
    orderId := "o1", timestamp := 0, positionSizeUSDT := 200 }

theorem c8_external_close_degraded_witness :
    ∃ cp : ClosedPosition,
      (checkPositionStep 5000 [] [] ⟨[], []⟩ c8Pos.symbol c8Pos).closedPositions
        = [] ++ [cp] ∧
      cp.exitPrice = c8Pos.entryPrice ∧ cp.pnl = 0 ∧ cp.pnlPercent = 0 :=
  c8_external_close_degraded 5000 [] [] ⟨[], []⟩ c8Pos.symbol c8Pos
    (Or.inl rfl) rfl

/-! ## Daily reset -/

/-- The day counters of the orchestrator's statistics record. -/
structure DayStatistics where
  dailyTrades : ℕ
  signalsIgnored : ℕ
  lastResetDate : String
deriving DecidableEq, Repr

/-- The ledger plus the day counters: the state the daily rollover
touches. -/
structure BotState where
  ledger : LedgerState
  stats : DayStatistics
deriving DecidableEq, Repr

/-- `resetDailyStatistics` from `src/services/position.service.js`:
clears the closed-position history and nothing else. -/
def resetDailyStatistics (st : LedgerState) : LedgerState :=
  { st with closedPositions := [] }

/-- The daily rollover block of `sendDailyReport`: when the date changed,
zero the day counters, record the new date, and call
`resetDailyStatistics`. -/
def dailyRollover (currentDate : String) (st : BotState) : BotState :=
  if currentDate ≠ st.stats.lastResetDate then
    { ledger := resetDailyStatistics st.ledger,
      stats := { dailyTrades := 0, signalsIgnored := 0,
                 lastResetDate := currentDate } }
  else st

/-- C9: the daily reset empties the closed-position history and zeroes
the day counters while leaving the open-position map exactly as it was —
same symbols, same entries, unchanged fields. -/
theorem c9_daily_reset_frame (currentDate : String) (st : BotState)
    (h : currentDate ≠ st.stats.lastResetDate) :
    (dailyRollover currentDate st).ledger.openPositions
        = st.ledger.openPositions ∧
    (dailyRollover currentDate st).ledger.closedPositions = [] ∧
    (dailyRollover currentDate st).stats.dailyTrades = 0 ∧
    (dailyRollover currentDate st).stats.signalsIgnored = 0 := by
  simp [dailyRollover, resetDailyStatistics, h]

/-- The bot state of the C9 witness: one open position, one closed
position, nonzero counters, dated yesterday. -/
def c9State : BotState :=
  { ledger := { openPositions := [(c8Pos.symbol, c8Pos)],
                closedPositions := [degradedClosedPosition 5000 c8Pos] },
    stats := { dailyTrades := 4, signalsIgnored := 2,
               lastResetDate := "2026-10-11" } }

/-- Today's date for the C9 witness. -/
def c9Today : String := "2026-10-12"

theorem c9_daily_reset_frame_witness :
    (dailyRollover c9Today c9State).ledger.openPositions
        = [(c8Pos.symbol, c8Pos)] ∧
    (dailyRollover c9Today c9State).ledger.closedPositions = [] ∧
    (dailyRollover c9Today c9State).stats.dailyTrades = 0 ∧
    (dailyRollover c9Today c9State).stats.signalsIgnored = 0 :=
  c9_daily_reset_frame c9Today c9State (by decide)

end KuCoinBot
